import Mathlib

/-!
Shallow embedding of the TradingGrok advisory-to-order pipeline.

Sources:
* `src/grok_analyzer.py` — advisory client (`_call_grok_api`, `analyze_market`),
  action resolver (`format_trades`), error-feedback store
  (`add_trade_error`, `clear_trade_errors`);
* `src/alpaca_trader.py` — execution guard (`_can_execute_trade`) and order
  submission (`execute_trade`);
* `src/trading_bot.py` — orchestrator gate (`should_execute_trade`).

Prices and monetary amounts (Python floats in the source) are modelled as ℚ;
share counts (Python ints) as ℤ; the brokerage-reported position quantity
(a float) as ℚ.
-/

namespace TradingGrok

/-- One advisory "action" entry as consumed by `format_trades`
(grok_analyzer.py lines 546-580).  Each `Option` field models a key that may
be absent from the JSON object; the Python code reads them with `.get` and
the defaults embedded below.  `symbol` is accessed as `action["symbol"]`
(mandatory), so it is a plain field.  Free-text audit fields (reasoning,
news catalyst, web-search summary, holding period) are carried through to
logs only and influence no computation, so they are omitted. -/
structure ActionEntry where
  symbol : String
  action : Option String
  current_qty : Option Int
  target_qty : Option Int
  qty_change : Option Int
  entry_price_min : Option ℚ
  entry_price_max : Option ℚ
  stop_loss : Option ℚ
  target_price : Option ℚ
  confidence : Option ℚ
  urgency : Option String
deriving DecidableEq

/-- Effective action type: `action.get("action", "OPEN")`. -/
def ActionEntry.actionType (a : ActionEntry) : String := a.action.getD "OPEN"

/-- Effective current quantity: `action.get("current_qty", 0)`. -/
def ActionEntry.currentQty (a : ActionEntry) : Int := a.current_qty.getD 0

/-- Effective target quantity: `action.get("target_qty", 0)`. -/
def ActionEntry.targetQty (a : ActionEntry) : Int := a.target_qty.getD 0

/-- Effective quantity change:
`action.get("qty_change", target_qty - current_qty)` (grok_analyzer.py
line 551) — the entry's own `qty_change` field wins when present. -/
def ActionEntry.qtyChange (a : ActionEntry) : Int :=
  a.qty_change.getD (a.targetQty - a.currentQty)

/-- The trade dictionary built by `format_trades` (grok_analyzer.py lines
582-598).  The keys `stop_loss` and `target_price` are ALWAYS present in the
dictionary; their values are the possibly-absent advisory values, hence
`Option ℚ` here. -/
structure Trade where
  symbol : String
  side : String
  qty : Int
  order_type : String
  limit_price : ℚ
  time_in_force : String
  stop_loss : Option ℚ
  target_price : Option ℚ
  confidence : ℚ
  action_type : String
  current_qty : Int
  target_qty : Int
  urgency : String
deriving DecidableEq

/-- The side/quantity dispatch of `format_trades` (grok_analyzer.py lines
553-580): the `if/elif` chain on `(action_type, sign of qty_change)`;
the final `else` logs and skips the entry (`continue`), modelled as `none`.
On a match the trade dictionary of lines 582-598 is built. -/
def resolveAction (a : ActionEntry) : Option Trade :=
  let act := a.actionType
  let qc := a.qtyChange
  let sideQty : Option (String × Int) :=
    if act = "OPEN" ∧ 0 < qc then some ("buy", |qc|)
    else if act = "ADD" ∧ 0 < qc then some ("buy", |qc|)
    else if act = "SHORT" ∧ qc < 0 then some ("sell", |qc|)
    else if act = "COVER" ∧ 0 < qc then some ("buy", |qc|)
    else if (act = "REDUCE" ∨ act = "CLOSE") ∧ qc < 0 then some ("sell", |qc|)
    else if (act = "REDUCE" ∨ act = "CLOSE") ∧ 0 < qc then some ("buy", |qc|)
    else none
  sideQty.map (fun sq =>
    { symbol := a.symbol
      side := sq.1
      qty := sq.2
      order_type := "limit"
      limit_price := a.entry_price_max.getD (a.entry_price_min.getD 100)
      time_in_force := "day"
      stop_loss := a.stop_loss
      target_price := a.target_price
      confidence := a.confidence.getD (1/2)
      action_type := act
      current_qty := a.currentQty
      target_qty := a.targetQty
      urgency := a.urgency.getD "MEDIUM" })

/-- Modelled from the spec: the state/transition table of §4.2, row by row —
`(action_type, sign of qty_change) → side`, every unlisted combination
rejected.  This is the specification-side definition used to compare the
source's `resolveAction` against the table. -/
def specTableSide (act : String) (qc : Int) : Option String :=
  if act = "OPEN" ∧ 0 < qc then some "buy"
  else if act = "ADD" ∧ 0 < qc then some "buy"
  else if act = "SHORT" ∧ qc < 0 then some "sell"
  else if act = "COVER" ∧ 0 < qc then some "buy"
  else if (act = "REDUCE" ∨ act = "CLOSE") ∧ qc < 0 then some "sell"
  else if (act = "REDUCE" ∨ act = "CLOSE") ∧ 0 < qc then some "buy"
  else none

/-- Account record as read by the execution guard.  `get_account_info`
(alpaca_trader.py lines 19-46) returns many fields, but
`_can_execute_trade` reads only `buying_power`; the empty-dictionary error
return is modelled by wrapping the record in `Option` at the call sites. -/
structure AccountInfo where
  buying_power : ℚ
deriving DecidableEq

/-- Position record as read by the execution guard: `get_positions`
(alpaca_trader.py lines 48-71) yields `symbol` and the brokerage's float
`qty` (signed: negative for short positions). -/
structure PositionInfo where
  symbol : String
  qty : ℚ
deriving DecidableEq

/-- Identifies which internal branch of `_can_execute_trade` decided the
outcome; the two failure constructors carry exactly the values interpolated
into the corresponding log messages (alpaca_trader.py lines 151 and 160).
`ok` means the boolean check returned `True`. -/
inductive GuardResult where
  | ok
  | noAccount
  | insufficientQuantity (requested available : Int)
  | insufficientBuyingPower (estimatedCost buyingPower : ℚ)
deriving DecidableEq

/-- Available quantity computed by the sell branch of `_can_execute_trade`
(alpaca_trader.py lines 142-148): scan the positions for the first entry
with a matching symbol and take `int(abs(float(pos.qty)))`; `0` when no
position matches.  Note the function receives no open-order information at
all. -/
def availableQtyFor (positions : List PositionInfo) (symbol : String) : Int :=
  match positions.find? (fun p => p.symbol = symbol) with
  | some p => ⌊|p.qty|⌋
  | none => 0

/-- The execution guard `_can_execute_trade` (alpaca_trader.py lines
133-167).  `account = none` models the empty dictionary returned by
`get_account_info` on error (lines 136-138).  For sell orders the requested
quantity is compared against `availableQtyFor` (lines 140-152).  For buy
orders, `latestPrice` models `get_latest_trade(symbol).price`; the Python
truthiness test `if latest_trade and latest_trade.price` skips the check
when the price is missing or zero (lines 154-161). -/
def canExecuteTrade (account : Option AccountInfo) (positions : List PositionInfo)
    (latestPrice : Option ℚ) (symbol side : String) (qty : Int) : GuardResult :=
  match account with
  | none => .noAccount
  | some acct =>
    if side = "sell" ∧ availableQtyFor positions symbol < qty then
      .insufficientQuantity qty (availableQtyFor positions symbol)
    else if side = "buy" then
      match latestPrice with
      | some price =>
        if price ≠ 0 ∧ acct.buying_power < price * qty then
          .insufficientBuyingPower (price * qty) acct.buying_power
        else .ok
      | none => .ok
    else .ok

/-- Shape of the single order submitted by `execute_trade`:
`bracket stopPrice takeProfit` models `order_class="bracket"` with a
`stop_loss={stop_price: ...}` leg (value possibly `None`, hence the inner
`Option`) and, when the take-profit leg was attached, `some limitPrice`
(again possibly `None`).  `simple` is the regular order of lines 108-122. -/
inductive OrderClass where
  | simple
  | bracket (stopPrice : Option ℚ) (takeProfit : Option (Option ℚ))
deriving DecidableEq

/-- Order-shape selection of `execute_trade` (alpaca_trader.py lines
85-122).  The source condition is
`action_type in ["OPEN", "ADD"] and "stop_loss" in trade_signal`; for every
trade built by `format_trades` the `stop_loss` key is present (grok_analyzer.py
line 589, value possibly `None`), so on resolver output the membership test
is identically true and the condition reduces to the action-type test.
Likewise `"target_price" in trade_signal` (line 101) is always true, so the
take-profit leg is always attached in the bracket branch, carrying the
possibly-`None` target price. -/
def buildOrder (t : Trade) : OrderClass :=
  if t.action_type = "OPEN" ∨ t.action_type = "ADD" then
    .bracket t.stop_loss (some t.target_price)
  else .simple

/-- The submission path of `execute_trade` (alpaca_trader.py lines 73-131):
run the guard, and when it passes submit exactly one order of the shape
chosen by `buildOrder`; a failed guard submits nothing (the function falls
through to `return False, "Trade execution failed: unknown error"`).
The deprecated `_set_stop_loss` helper is never called, so no separate
stop order ever follows the submission. -/
def executeTrade (account : Option AccountInfo) (positions : List PositionInfo)
    (latestPrice : Option ℚ) (t : Trade) : Option OrderClass :=
  if canExecuteTrade account positions latestPrice t.symbol t.side t.qty = .ok then
    some (buildOrder t)
  else none

/-- Orchestrator gate `should_execute_trade` (trading_bot.py lines 204-242):
confidence and urgency are read only for logging; the sole checks are
`trade.get("qty", 0) <= 0` and falsiness of the symbol string. -/
def shouldExecuteTrade (t : Trade) : Bool :=
  if t.qty ≤ 0 then false
  else if t.symbol = "" then false
  else true

/-- One recommendation's end-to-end execute/skip decision in
`execute_trading_cycle` (trading_bot.py lines 185-197): the trade is
submitted iff `should_execute_trade` passes and then the execution guard
inside `execute_trade` passes. -/
def cycleExecutes (account : Option AccountInfo) (positions : List PositionInfo)
    (latestPrice : Option ℚ) (t : Trade) : Bool :=
  shouldExecuteTrade t && (executeTrade account positions latestPrice t).isSome

/-- One entry of the error-feedback store (`add_trade_error`,
grok_analyzer.py lines 21-32); the timestamp is the ISO string captured at
insertion time. -/
structure TradeError where
  symbol : String
  action : String
  error : String
  timestamp : String
deriving DecidableEq

/-- Recording one failure: append, then keep only the last ten entries —
`self.trade_errors = self.trade_errors[-10:]` (grok_analyzer.py line 31). -/
def addTradeError (errors : List TradeError) (e : TradeError) : List TradeError :=
  let es := errors ++ [e]
  es.drop (es.length - 10)

/-- One observable outcome of a single HTTP attempt against the advisory
service, as distinguished by `_call_grok_api` (grok_analyzer.py lines
468-525): a 200 response with a payload, a non-200 status, a timeout
exception, or any other exception. -/
inductive ApiOutcome where
  | success (payload : String)
  | httpError (status : Nat)
  | timeout
  | connectionError
deriving DecidableEq

/-- The retry loop of `_call_grok_api` (grok_analyzer.py lines 468-528),
over a deterministic environment `env` assigning an outcome to each request
(numbered globally by `idx`).  `fuel` is the number of loop iterations
remaining, so the 0-based attempt index of the current iteration is
`maxRetries - fuel` counting from fuel `= maxRetries`.  Returns the payload
(or `none`), the number of attempts made, and the list of backoff sleeps
(in seconds) performed between attempts.  A 200 response returns at once; a
status ≥ 500 retries after sleeping `2 ^ attempt` seconds unless the loop is
on its last iteration (`attempt < max_retries - 1` ⟺ `1 ≤ fuel` here); any
other status returns `None` immediately; timeouts and other exceptions
retry exactly like server errors. -/
def grokLoop (env : Nat → ApiOutcome) (maxRetries : Nat) : Nat → Nat →
    Option String × Nat × List Nat
  | _, 0 => (none, 0, [])
  | idx, fuel + 1 =>
    match env idx with
    | .success p => (some p, 1, [])
    | .httpError status =>
      if 500 ≤ status ∧ 1 ≤ fuel then
        let r := grokLoop env maxRetries (idx + 1) fuel
        (r.1, r.2.1 + 1, 2 ^ (maxRetries - (fuel + 1)) :: r.2.2)
      else (none, 1, [])
    | .timeout =>
      if 1 ≤ fuel then
        let r := grokLoop env maxRetries (idx + 1) fuel
        (r.1, r.2.1 + 1, 2 ^ (maxRetries - (fuel + 1)) :: r.2.2)
      else (none, 1, [])
    | .connectionError =>
      if 1 ≤ fuel then
        let r := grokLoop env maxRetries (idx + 1) fuel
        (r.1, r.2.1 + 1, 2 ^ (maxRetries - (fuel + 1)) :: r.2.2)
      else (none, 1, [])

/-- One invocation of `_call_grok_api` with the default `max_retries = 3`,
starting at global request index `startIdx`.  The `use_reduced_search` flag
only changes the request payload's search parameters, not the control flow,
so it does not appear here.  The embedding assumes a present API key (the
missing-key early return at lines 429-431 short-circuits everything and is
orthogonal to the claims). -/
def callGrokApi (env : Nat → ApiOutcome) (startIdx : Nat) :
    Option String × Nat × List Nat :=
  grokLoop env 3 startIdx 3

/-- The call structure of `analyze_market` (grok_analyzer.py lines 42-56):
one full-scope invocation of `_call_grok_api`; if it returns `None`, exactly
one further invocation with `use_reduced_search=True`; returns the raw
payload together with the number of full-scope and reduced-scope HTTP
attempts made. -/
def analyzeMarketCalls (env : Nat → ApiOutcome) : Option String × Nat × Nat :=
  let full := callGrokApi env 0
  match full.1 with
  | some p => (some p, full.2.1, 0)
  | none =>
    let reduced := callGrokApi env full.2.1
    (reduced.1, full.2.1, reduced.2.1)

/-- Error-store effect of `analyze_market` (grok_analyzer.py lines 45-54):
when an API response is obtained (from the full-scope call or the reduced
fallback) the whole store is cleared by `clear_trade_errors()`; when both
invocations fail, the function returns `None` without touching the store.
The clearing happens before `format_trades` parses the payload, so it is
keyed on the round-trip succeeding, not on the parse. -/
def analyzeMarketErrors (env : Nat → ApiOutcome) (errors : List TradeError) :
    Option String × List TradeError :=
  match (analyzeMarketCalls env).1 with
  | some p => (some p, [])
  | none => (none, errors)

/-- Concrete resolver input: an OPEN entry whose explicit `qty_change` field
(10) disagrees with `target_qty - current_qty` (50). -/
def c2Entry : ActionEntry :=
  { symbol := "TSLA", action := some "OPEN", current_qty := some 0,
    target_qty := some 50, qty_change := some 10, entry_price_min := none,
    entry_price_max := none, stop_loss := none, target_price := none,
    confidence := none, urgency := none }

/-- Concrete resolver input: an OPEN entry with no explicit `qty_change`
field. -/
def c2WEntry : ActionEntry :=
  { symbol := "TSLA", action := some "OPEN", current_qty := some 0,
    target_qty := some 50, qty_change := none, entry_price_min := none,
    entry_price_max := none, stop_loss := none, target_price := none,
    confidence := none, urgency := none }

/-- The trade `format_trades` builds from `c2WEntry`. -/
def c2WTrade : Trade :=
  { symbol := "TSLA", side := "buy", qty := 50, order_type := "limit",
    limit_price := 100, time_in_force := "day", stop_loss := none,
    target_price := none, confidence := 1/2, action_type := "OPEN",
    current_qty := 0, target_qty := 50, urgency := "MEDIUM" }

/-- Environment in which the three full-scope attempts and the first
reduced-scope attempt answer 503 and the next request succeeds. -/
def fallbackEnv : Nat → ApiOutcome := fun i =>
  if i < 4 then .httpError 503 else .success "ok"

/-- Environment answering every request with a client-side 400 error. -/
def clientErrEnv : Nat → ApiOutcome := fun _ => .httpError 400

/-- Environment with two server errors followed by a success, the retry
scenario of the spec's testable property. -/
def retryEnv : Nat → ApiOutcome := fun i =>
  if i = 0 then .httpError 503 else
    if i = 1 then .httpError 502 else .success "payload"

/-- A concrete execution failure record. -/
def witnessErr : TradeError :=
  { symbol := "AAPL", action := "REDUCE", error := "insufficient quantity",
    timestamp := "t0" }

/-- The sell trade of the spec's worked example: 70 shares of AAPL against a
100-share position while an open sell order locks 40 shares.  The open order
cannot be passed to the guard at all: `_can_execute_trade` takes only
symbol, side and quantity and reads only the account and position state. -/
def c1SellTrade : Trade :=
  { symbol := "AAPL", side := "sell", qty := 70, order_type := "limit",
    limit_price := 180, time_in_force := "day", stop_loss := none,
    target_price := none, confidence := 1, action_type := "REDUCE",
    current_qty := 100, target_qty := 30, urgency := "HIGH" }

/-- A resolved OPEN trade carrying no stop-loss and no target price. -/
def openNoStop : Trade :=
  { symbol := "NVDA", side := "buy", qty := 10, order_type := "limit",
    limit_price := 100, time_in_force := "day", stop_loss := none,
    target_price := none, confidence := 1, action_type := "OPEN",
    current_qty := 0, target_qty := 10, urgency := "MEDIUM" }

/-- An ADD entry carrying both a stop-loss and a target price. -/
def c5Entry : ActionEntry :=
  { symbol := "NVDA", action := some "ADD", current_qty := some 5,
    target_qty := some 15, qty_change := none, entry_price_min := none,
    entry_price_max := some 100, stop_loss := some 90,
    target_price := some 120, confidence := some 1, urgency := some "HIGH" }

/-- The trade `format_trades` builds from `c5Entry`. -/
def c5Trade : Trade :=
  { symbol := "NVDA", side := "buy", qty := 10, order_type := "limit",
    limit_price := 100, time_in_force := "day", stop_loss := some 90,
    target_price := some 120, confidence := 1, action_type := "ADD",
    current_qty := 5, target_qty := 15, urgency := "HIGH" }

/-! Helper lemmas about the retry loop and the resolver. -/

/-- The retry loop never makes more attempts than it has fuel for. -/
theorem grokLoop_attempts_le (env : Nat → ApiOutcome) (m : Nat) :
    ∀ fuel idx, (grokLoop env m idx fuel).2.1 ≤ fuel := by
  intro fuel
  induction fuel with
  | zero => intro idx; simp [grokLoop]
  | succ f ih =>
    intro idx
    have hrec := ih (idx + 1)
    simp only [grokLoop]
    cases env idx with
    | success p => simp
    | httpError s =>
      by_cases h : 500 ≤ s ∧ 1 ≤ f
      · simp only [h, and_self, if_true]
        omega
      · simp only [h, if_false]
        omega
    | timeout =>
      by_cases h : 1 ≤ f
      · simp only [h, if_true]
        omega
      · simp only [h, if_false]
        omega
    | connectionError =>
      by_cases h : 1 ≤ f
      · simp only [h, if_true]
        omega
      · simp only [h, if_false]
        omega

/-- With at least one unit of fuel the retry loop makes at least one
attempt. -/
theorem grokLoop_attempts_pos (env : Nat → ApiOutcome) (m : Nat)
    (fuel idx : Nat) (hf : 1 ≤ fuel) : 1 ≤ (grokLoop env m idx fuel).2.1 := by
  cases fuel with
  | zero => omega
  | succ f =>
    simp only [grokLoop]
    cases env idx with
    | success p => simp
    | httpError s =>
      by_cases h : 500 ≤ s ∧ 1 ≤ f
      · simp only [h, and_self, if_true]
        omega
      · simp only [h, if_false]
        omega
    | timeout =>
      by_cases h : 1 ≤ f
      · simp only [h, if_true]
        omega
      · simp only [h, if_false]
        omega
    | connectionError =>
      by_cases h : 1 ≤ f
      · simp only [h, if_true]
        omega
      · simp only [h, if_false]
        omega

/-- The backoff sleeps are exactly `2 ^ attempt` for the successive 0-based
attempt indices, one sleep per retried attempt. -/
theorem grokLoop_sleeps (env : Nat → ApiOutcome) (m : Nat) :
    ∀ fuel idx, fuel ≤ m →
      (grokLoop env m idx fuel).2.2 =
        (List.range ((grokLoop env m idx fuel).2.1 - 1)).map
          (fun j => 2 ^ (m - fuel + j)) := by
  intro fuel
  induction fuel with
  | zero => intro idx _; simp [grokLoop]
  | succ f ih =>
    intro idx hfm
    have hrec := ih (idx + 1) (by omega)
    have hpos := grokLoop_attempts_pos env m f (idx + 1)
    simp only [grokLoop]
    cases env idx with
    | success p => simp
    | httpError s =>
      by_cases h : 500 ≤ s ∧ 1 ≤ f
      · simp only [h, and_self, if_true]
        obtain ⟨k, hk⟩ : ∃ k, (grokLoop env m (idx + 1) f).2.1 = k + 1 :=
          ⟨(grokLoop env m (idx + 1) f).2.1 - 1, by have := hpos h.2; omega⟩
        rw [hrec, hk]
        have hfun : ((fun j => 2 ^ (m - (f + 1) + j)) ∘ Nat.succ) =
            (fun j => 2 ^ (m - f + j)) := by
          funext j
          simp only [Function.comp_apply]
          congr 1
          omega
        simp only [Nat.add_sub_cancel, List.range_succ_eq_map, List.map_cons,
          List.map_map, hfun, Nat.add_zero]
      · simp only [h, if_false]
        simp
    | timeout =>
      by_cases h : 1 ≤ f
      · simp only [h, if_true]
        obtain ⟨k, hk⟩ : ∃ k, (grokLoop env m (idx + 1) f).2.1 = k + 1 :=
          ⟨(grokLoop env m (idx + 1) f).2.1 - 1, by have := hpos h; omega⟩
        rw [hrec, hk]
        have hfun : ((fun j => 2 ^ (m - (f + 1) + j)) ∘ Nat.succ) =
            (fun j => 2 ^ (m - f + j)) := by
          funext j
          simp only [Function.comp_apply]
          congr 1
          omega
        simp only [Nat.add_sub_cancel, List.range_succ_eq_map, List.map_cons,
          List.map_map, hfun, Nat.add_zero]
      · simp only [h, if_false]
        simp
    | connectionError =>
      by_cases h : 1 ≤ f
      · simp only [h, if_true]
        obtain ⟨k, hk⟩ : ∃ k, (grokLoop env m (idx + 1) f).2.1 = k + 1 :=
          ⟨(grokLoop env m (idx + 1) f).2.1 - 1, by have := hpos h; omega⟩
        rw [hrec, hk]
        have hfun : ((fun j => 2 ^ (m - (f + 1) + j)) ∘ Nat.succ) =
            (fun j => 2 ^ (m - f + j)) := by
          funext j
          simp only [Function.comp_apply]
          congr 1
          omega
        simp only [Nat.add_sub_cancel, List.range_succ_eq_map, List.map_cons,
          List.map_map, hfun, Nat.add_zero]
      · simp only [h, if_false]
        simp

/-- A trade emitted by the resolver copies its quantity (the absolute
effective quantity change), stop-loss, target price, action type and symbol
straight from the advisory entry. -/
theorem resolveAction_fields (a : ActionEntry) (t : Trade)
    (h : resolveAction a = some t) :
    t.qty = |a.qtyChange| ∧ t.stop_loss = a.stop_loss ∧
    t.target_price = a.target_price ∧ t.action_type = a.actionType ∧
    t.symbol = a.symbol := by
  simp only [resolveAction] at h
  split_ifs at h <;>
    simp only [Option.map_some', Option.map_none'] at h <;>
    [skip; skip; skip; skip; skip; skip; exact absurd h (by simp)] <;>
  · injection h with h
    subst h
    exact ⟨rfl, rfl, rfl, rfl, rfl⟩

/-! Claim theorems. -/

/-- C1: the spec requires the sell guard to fail a 70-share sell against a
100-share position with 40 shares locked in an open sell order, with
InsufficientQuantity(70, 60).  The code disagrees: `_can_execute_trade`
receives no open-order information, computes available quantity as the bare
`int(abs(pos.qty))` = 100, and therefore passes the check, so
`execute_trade` submits the order.  This contradicts the guard's own prompt
documentation (grok_analyzer.py lines 153-160), which promises that
available quantity accounts for locked shares. -/
theorem sell_guard_ignores_open_orders :
    canExecuteTrade (some { buying_power := 1000 })
        [{ symbol := "AAPL", qty := 100 }] none "AAPL" "sell" 70 = .ok ∧
    executeTrade (some { buying_power := 1000 })
        [{ symbol := "AAPL", qty := 100 }] none c1SellTrade = some .simple := by
  constructor
  · decide
  · decide

/-- C2 counterexample: an accepted OPEN entry whose `qty_change` field is 10
while `abs(target_qty - current_qty)` is 50 resolves with quantity 10, so
the resolved quantity is not independent of the other fields of the
entry. -/
theorem resolved_qty_counterexample :
    (resolveAction c2Entry).map Trade.qty = some 10 ∧
      ¬((resolveAction c2Entry).map Trade.qty =
          some |c2Entry.targetQty - c2Entry.currentQty|) := by
  constructor
  · decide
  · decide

/-- C2 (amended): for every accepted PortfolioAction entry the emitted
quantity is the absolute value of the entry's effective quantity change —
the `qty_change` field when present, else `target_qty - current_qty`; in
particular it equals `abs(target_qty - current_qty)` whenever the entry
carries no explicit `qty_change` field. -/
theorem resolved_qty_is_abs_qty_change (a : ActionEntry) (t : Trade)
    (h : resolveAction a = some t) :
    t.qty = |a.qtyChange| ∧
      (a.qty_change = none → t.qty = |a.targetQty - a.currentQty|) := by
  obtain ⟨hq, -, -, -, -⟩ := resolveAction_fields a t h
  refine ⟨hq, fun hn => ?_⟩
  rw [hq]
  simp [ActionEntry.qtyChange, hn]

/-- Witness for C2's amended theorem at a concrete OPEN entry without an
explicit `qty_change` field. -/
theorem resolved_qty_is_abs_qty_change_witness :
    c2WTrade.qty = |c2WEntry.qtyChange| ∧
      (c2WEntry.qty_change = none →
        c2WTrade.qty = |c2WEntry.targetQty - c2WEntry.currentQty|) :=
  resolved_qty_is_abs_qty_change c2WEntry c2WTrade (by rfl)

/-- C3: for every PortfolioAction entry the resolver emits a trade iff the
pair of effective action type and sign of the effective quantity change
matches a row of the spec's state table, and the emitted side is exactly
the table's side; every other combination is skipped, never repaired. -/
theorem resolver_matches_spec_table (a : ActionEntry) :
    (resolveAction a).map Trade.side = specTableSide a.actionType a.qtyChange := by
  simp only [resolveAction, specTableSide]
  split_ifs <;> rfl

/-- C4 counterexample: with three full-scope 503 responses, then a 503 and
a success, `analyze_market` makes two reduced-scope HTTP attempts — not
exactly one additional attempt as the claim states. -/
theorem reduced_scope_counterexample :
    analyzeMarketCalls fallbackEnv = (some "ok", 3, 2) ∧ (2 : Nat) ≠ 1 := by
  constructor
  · decide
  · decide

/-- C4 (amended): whenever the full-scope invocation of the API call fails,
`analyze_market` makes exactly one additional invocation of the API-call
routine with the reduced search scope — whose result becomes the overall
result — and that single invocation itself makes between 1 and 3 HTTP
attempts under the same retry policy. -/
theorem reduced_scope_single_invocation (env : Nat → ApiOutcome)
    (h : (callGrokApi env 0).1 = none) :
    analyzeMarketCalls env =
      ((callGrokApi env (callGrokApi env 0).2.1).1, (callGrokApi env 0).2.1,
        (callGrokApi env (callGrokApi env 0).2.1).2.1) ∧
    1 ≤ (callGrokApi env (callGrokApi env 0).2.1).2.1 ∧
    (callGrokApi env (callGrokApi env 0).2.1).2.1 ≤ 3 := by
  refine ⟨?_, grokLoop_attempts_pos env 3 3 _ (by omega),
    grokLoop_attempts_le env 3 3 _⟩
  simp only [analyzeMarketCalls]
  rw [h]

/-- Witness for C4's amended theorem in the all-client-errors
environment. -/
theorem reduced_scope_single_invocation_witness :
    analyzeMarketCalls clientErrEnv =
      ((callGrokApi clientErrEnv (callGrokApi clientErrEnv 0).2.1).1,
        (callGrokApi clientErrEnv 0).2.1,
        (callGrokApi clientErrEnv (callGrokApi clientErrEnv 0).2.1).2.1) ∧
    1 ≤ (callGrokApi clientErrEnv (callGrokApi clientErrEnv 0).2.1).2.1 ∧
    (callGrokApi clientErrEnv (callGrokApi clientErrEnv 0).2.1).2.1 ≤ 3 :=
  reduced_scope_single_invocation clientErrEnv (by decide)

/-- C5 counterexample: a resolved OPEN trade carrying no stop-loss is
submitted as a bracket order whose stop leg has a null stop price (and with
a take-profit leg carrying a null limit price), not as the plain non-bracket
order the claim requires for stop-less trades. -/
theorem bracket_counterexample :
    openNoStop.stop_loss = none ∧
      buildOrder openNoStop = .bracket none (some none) ∧
      buildOrder openNoStop ≠ .simple := by
  refine ⟨rfl, rfl, ?_⟩
  decide

/-- C5 (amended): every resolved trade whose action type is OPEN or ADD is
submitted as a single bracket order whose stop leg carries the advisory
entry's (possibly absent) stop-loss and which always carries a take-profit
leg with the entry's (possibly absent) target price — regardless of whether
a stop-loss is actually present; every other resolved trade is submitted as
a plain non-bracket order; the stop is never submitted separately. -/
theorem bracket_for_all_open_add (a : ActionEntry) (t : Trade)
    (h : resolveAction a = some t) :
    ((t.action_type = "OPEN" ∨ t.action_type = "ADD") →
        buildOrder t = .bracket a.stop_loss (some a.target_price)) ∧
    (¬(t.action_type = "OPEN" ∨ t.action_type = "ADD") →
        buildOrder t = .simple) := by
  obtain ⟨-, hsl, htp, -, -⟩ := resolveAction_fields a t h
  constructor
  · intro hoa
    simp [buildOrder, hoa, hsl, htp]
  · intro hoa
    simp [buildOrder, hoa]

/-- Witness for C5's amended theorem at a concrete ADD entry with stop-loss
and target price. -/
theorem bracket_for_all_open_add_witness :
    ((c5Trade.action_type = "OPEN" ∨ c5Trade.action_type = "ADD") →
        buildOrder c5Trade = .bracket c5Entry.stop_loss (some c5Entry.target_price)) ∧
    (¬(c5Trade.action_type = "OPEN" ∨ c5Trade.action_type = "ADD") →
        buildOrder c5Trade = .simple) :=
  bracket_for_all_open_add c5Entry c5Trade (by rfl)

/-- C6: the advisory call makes at most 3 attempts; its backoff sleeps are
exactly `2 ^ attempt` seconds for the successive 0-based attempt indices
(1s after the first failure, 2s after the second); a client-side HTTP error
(status below 500) fails immediately after a single attempt with no sleep;
and two server errors followed by a success yield exactly 3 attempts with
sleeps 1s and 2s and return the successful payload. -/
theorem advisory_retry_policy :
    (∀ (env : Nat → ApiOutcome) (idx : Nat), (callGrokApi env idx).2.1 ≤ 3) ∧
    (∀ (env : Nat → ApiOutcome) (idx : Nat),
        (callGrokApi env idx).2.2 =
          (List.range ((callGrokApi env idx).2.1 - 1)).map (fun j => 2 ^ j)) ∧
    (∀ (env : Nat → ApiOutcome) (idx s : Nat),
        env idx = ApiOutcome.httpError s → s < 500 →
        callGrokApi env idx = (none, 1, [])) ∧
    (∀ (env : Nat → ApiOutcome) (s₁ s₂ : Nat) (p : String),
        env 0 = ApiOutcome.httpError s₁ → env 1 = ApiOutcome.httpError s₂ →
        env 2 = ApiOutcome.success p → 500 ≤ s₁ → 500 ≤ s₂ →
        callGrokApi env 0 = (some p, 3, [1, 2])) := by
  refine ⟨?_, ?_, ?_, ?_⟩
  · intro env idx
    exact grokLoop_attempts_le env 3 3 idx
  · intro env idx
    have := grokLoop_sleeps env 3 3 idx (le_refl 3)
    simpa using this
  · intro env idx s h hs
    simp only [callGrokApi, grokLoop, h]
    rw [if_neg (by omega)]
  · intro env s₁ s₂ p h0 h1 h2 hs₁ hs₂
    simp [callGrokApi, grokLoop, h0, h1, h2, hs₁, hs₂]

/-- Witness for C6 in the two-server-errors-then-success environment. -/
theorem advisory_retry_policy_witness :
    callGrokApi retryEnv 0 = (some "payload", 3, [1, 2]) :=
  advisory_retry_policy.2.2.2 retryEnv 503 502 "payload" (by decide) (by decide)
    (by decide) (by decide) (by decide)

/-- C7: the error-feedback store never exceeds 10 entries; below the bound a
new entry is appended without eviction; at the bound the oldest entry alone
is evicted (FIFO); and one advisory round-trip clears the store as a whole
exactly when the API call succeeded, leaving it untouched when both the
full-scope and reduced-scope invocations failed. -/
theorem error_store_bound_and_clear :
    (∀ (es : List TradeError) (e : TradeError),
        (addTradeError es e).length ≤ 10) ∧
    (∀ (es : List TradeError) (e : TradeError), es.length ≤ 9 →
        addTradeError es e = es ++ [e]) ∧
    (∀ (es : List TradeError) (e : TradeError), es.length = 10 →
        addTradeError es e = es.tail ++ [e]) ∧
    (∀ (env : Nat → ApiOutcome) (es : List TradeError),
        analyzeMarketErrors env es =
          ((analyzeMarketCalls env).1,
            if (analyzeMarketCalls env).1 = none then es else [])) := by
  refine ⟨?_, ?_, ?_, ?_⟩
  · intro es e
    simp only [addTradeError, List.length_drop, List.length_append,
      List.length_cons]
    omega
  · intro es e h
    simp only [addTradeError]
    have h0 : (es ++ [e]).length - 10 = 0 := by simp; omega
    rw [h0, List.drop_zero]
  · intro es e h
    simp only [addTradeError]
    have h1 : (es ++ [e]).length - 10 = 1 := by simp [h]
    rw [h1, List.drop_append_of_le_length (by omega), List.drop_one]
  · intro env es
    cases hc : (analyzeMarketCalls env).1 with
    | none => simp [analyzeMarketErrors, hc]
    | some p => simp [analyzeMarketErrors, hc]

/-- Witness for C7 at a full store receiving an eleventh entry. -/
theorem error_store_bound_and_clear_witness :
    addTradeError (List.replicate 10 witnessErr) witnessErr =
      (List.replicate 10 witnessErr).tail ++ [witnessErr] :=
  error_store_bound_and_clear.2.2.1 (List.replicate 10 witnessErr) witnessErr
    (by decide)

/-- C8: for every buy trade for which a non-zero reference price was
obtained, the guard fails whenever price times quantity exceeds buying
power, and the failing branch carries exactly the estimated cost and the
buying power (the values interpolated into its log message). -/
theorem buying_power_guard (acct : AccountInfo) (positions : List PositionInfo)
    (sym : String) (price : ℚ) (qty : Int)
    (hprice : price ≠ 0) (hcost : acct.buying_power < price * qty) :
    canExecuteTrade (some acct) positions (some price) sym "buy" qty =
      .insufficientBuyingPower (price * qty) acct.buying_power := by
  have hc1 : ¬("buy" = "sell" ∧ availableQtyFor positions sym < qty) := by
    rintro ⟨hside, -⟩
    exact absurd hside (by decide)
  simp [canExecuteTrade, hc1, hprice, hcost]

/-- Witness for C8 at the spec's example: buying power 1000, price 50,
quantity 25, estimated cost 1250. -/
theorem buying_power_guard_witness :
    canExecuteTrade (some { buying_power := 1000 }) [] (some 50) "NVDA" "buy" 25 =
      .insufficientBuyingPower ((50 : ℚ) * ((25 : Int) : ℚ)) 1000 :=
  buying_power_guard { buying_power := 1000 } [] "NVDA" 50 25 (by norm_num)
    (by norm_num)

/-- C9: the orchestrator's execute/skip decision is unchanged under any
change of the recommendation's confidence and urgency fields, and the
orchestrator-level gate is exactly the mechanical sanity check that the
quantity is positive and the symbol non-empty. -/
theorem decision_ignores_conf_urgency (account : Option AccountInfo)
    (positions : List PositionInfo) (latestPrice : Option ℚ) (t : Trade)
    (c c' : ℚ) (u u' : String) :
    (cycleExecutes account positions latestPrice
        { t with confidence := c, urgency := u } =
      cycleExecutes account positions latestPrice
        { t with confidence := c', urgency := u' }) ∧
    (shouldExecuteTrade t = true ↔ 0 < t.qty ∧ t.symbol ≠ "") := by
  constructor
  · rfl
  · unfold shouldExecuteTrade
    split_ifs with h1 h2
    · simp only [Bool.false_eq_true, false_iff]
      rintro ⟨hq, -⟩
      omega
    · simp only [Bool.false_eq_true, false_iff]
      rintro ⟨-, hs⟩
      exact hs h2
    · simp only [true_iff]
      exact ⟨by omega, h2⟩

/-- C10: the sell-availability check compares the requested quantity against
the absolute value of the position's reported quantity, so a position
reported with negative (short) quantity of magnitude n lets a sell request
of up to n shares pass the guard. -/
theorem short_magnitude_counts_as_available (acct : AccountInfo) (sym : String)
    (n : Nat) (req : Int) (latestPrice : Option ℚ) (hreq : req ≤ (n : Int)) :
    canExecuteTrade (some acct) [{ symbol := sym, qty := -(n : ℚ) }] latestPrice
      sym "sell" req = .ok := by
  have havail : availableQtyFor [{ symbol := sym, qty := -(n : ℚ) }] sym
      = (n : Int) := by
    unfold availableQtyFor
    rw [List.find?_cons_of_pos _ (by simp)]
    simp only []
    rw [abs_neg, abs_of_nonneg (by exact_mod_cast Nat.cast_nonneg n),
      Int.floor_natCast]
  have hc1 : ¬("sell" = "sell" ∧
      availableQtyFor [{ symbol := sym, qty := -(n : ℚ) }] sym < req) := by
    rw [havail]
    rintro ⟨-, hlt⟩
    omega
  have hc2 : ¬("sell" = "buy") := by decide
  simp [canExecuteTrade, hc1, hc2]
  rw [havail]
  exact hreq

/-- Witness for C10: a 40-share short position lets a 40-share sell request
pass the availability check. -/
theorem short_magnitude_counts_as_available_witness :
    canExecuteTrade (some { buying_power := 0 })
        [{ symbol := "GME", qty := -((40 : Nat) : ℚ) }] none "GME" "sell" 40 =
      .ok :=
  short_magnitude_counts_as_available { buying_power := 0 } "GME" 40 40 none
    (by decide)

end TradingGrok
